import Mathlib

/-!
Shallow embedding of the EtherFlow wallet/session/account linkage flow.

The definitions below are translated from `src/context/auth-context.tsx`
(the `AuthProvider` and `Web3Provider` contexts) and from
`src/app/dashboard/page.tsx` (the `linkWalletIfConnected` effect).
External services (the Firestore document store, the injected wallet
provider) are modelled by explicit state and by outcome parameters that
say whether each external call succeeds or throws, mirroring the
`try`/`catch` structure of the source.
-/

namespace EtherFlow

/-- In-memory session user (`interface UserData`, auth-context.tsx lines 20-26).
`walletAddresses` is optional, as in the source (`walletAddresses?: string[]`). -/
structure UserData where
  uid : String
  email : Option String
  displayName : Option String
  photoURL : Option String
  walletAddresses : Option (List String)
deriving Repr, DecidableEq

/-- Persisted per-user Firestore document (the object written by
`createUserProfile` / `linkWalletToUser`, auth-context.tsx lines 173-180
and 383-390). -/
structure UserDoc where
  uid : String
  email : Option String
  displayName : Option String
  photoURL : Option String
  walletAddresses : Option (List String)
  createdAt : String
deriving Repr, DecidableEq

/-- A Firestore error as seen by `handleFirestoreError`: an error code and a
message (auth-context.tsx lines 104-128). -/
structure FsError where
  code : String
  message : String
deriving Repr, DecidableEq

/-- Outcome of the external Firestore calls made during one operation:
`getDocErr` is the error thrown by `getDoc` (none = the read succeeds),
`writeErr` the error thrown by the attempted `updateDoc`/`setDoc` write. -/
structure FsOutcome where
  getDocErr : Option FsError
  writeErr : Option FsError
deriving Repr, DecidableEq

/-- Outcome in which every Firestore call succeeds. -/
def fsOk : FsOutcome := ⟨none, none⟩

/-- State held by `AuthProvider` (auth-context.tsx lines 57-59) together with
the external document store and the toast diagnostics emitted so far.
`dbInit` says whether the Firestore handle `db` is non-null;
`store` is the `users` collection, keyed by uid;
`diagnostics` collects the destructive toast messages (the error channel). -/
structure AuthState where
  dbInit : Bool
  user : Option UserData
  firestoreError : Option String
  store : List (String × UserDoc)
  diagnostics : List String
deriving Repr, DecidableEq

/-- Read of a document by key (`getDoc` on `doc(db, "users", uid)` when the
call does not throw; `none` models `userSnap.exists()` being false). -/
def storeGet (store : List (String × UserDoc)) (uid : String) : Option UserDoc :=
  match store with
  | [] => none
  | (k, v) :: rest => if k = uid then some v else storeGet rest uid

/-- Replacement write of a document by key (`setDoc`, and `updateDoc` after
the field replacement has been applied to the read document). -/
def storeSet (store : List (String × UserDoc)) (uid : String) (d : UserDoc) :
    List (String × UserDoc) :=
  match store with
  | [] => [(uid, d)]
  | (k, v) :: rest => if k = uid then (uid, d) :: rest else (k, v) :: storeSet rest uid d

/-- Message chosen by `handleFirestoreError` (auth-context.tsx lines 104-128):
the string shown in the destructive toast. The `unavailable` branch also
matches any error whose message contains "offline", as in the source. -/
def firestoreErrorMessage (e : FsError) : String :=
  if e.code = "unavailable" ∨ 1 < (e.message.splitOn "offline").length then
    "Database is unavailable. Please check your internet connection."
  else if e.code = "permission-denied" then
    "You don\x27t have permission to access this data."
  else if e.code = "not-found" then
    "The requested data does not exist."
  else
    "An unexpected database error occurred."

/-- Effect of `handleFirestoreError` on the provider state: sets
`firestoreError` for the unavailable / permission-denied classes and emits
the toast message on the diagnostics channel (auth-context.tsx lines 104-128). -/
def applyFirestoreError (s : AuthState) (e : FsError) : AuthState :=
  let newFsError :=
    if e.code = "unavailable" ∨ 1 < (e.message.splitOn "offline").length then
      some ("Firestore is unavailable. Make sure you\x27ve created a Firestore database "
        ++ "in the Firebase Console and check your internet connection.")
    else if e.code = "permission-denied" then
      some "Firestore permission denied. Check your security rules in the Firebase Console."
    else
      s.firestoreError
  { s with firestoreError := newFsError
           diagnostics := s.diagnostics ++ [firestoreErrorMessage e] }

/-- Effect of `isFirestoreInitialized` returning false (auth-context.tsx
lines 144-155): a toast is emitted and `firestoreError` is set. -/
def firestoreInitFailure (s : AuthState) : AuthState :=
  { s with firestoreError := some "Firestore is not initialized. Check your environment variables."
           diagnostics := s.diagnostics ++
             ["Firestore database is not properly initialized. Check your environment variables."] }

/-- Inner catch handler of `linkWalletToUser` (auth-context.tsx lines 400-413):
on any Firestore failure, report the error and update only the local user
state, appending the address unless it is already present in memory. -/
def localFallbackLink (s : AuthState) (u : UserData) (e : FsError)
    (walletAddress : String) : AuthState :=
  let s1 := applyFirestoreError s e
  let walletAddresses := u.walletAddresses.getD []
  if walletAddress ∈ walletAddresses then s1
  else { s1 with user := some { u with walletAddresses := some (walletAddresses ++ [walletAddress]) } }

/-- The link operation `linkWalletToUser` (auth-context.tsx lines 352-418).
`o` fixes the outcome of the external Firestore calls; `now` is the value of
`new Date().toISOString()` used for `createdAt`. The result is the thrown
error or success, paired with the state after the call. -/
def linkWalletToUser (s : AuthState) (o : FsOutcome) (walletAddress : String)
    (now : String) : Except String Unit × AuthState :=
  if s.dbInit = false then
    (Except.error "Firestore is not initialized", firestoreInitFailure s)
  else
    match s.user with
    | none => (Except.error "No user logged in", s)
    | some u =>
      match o.getDocErr with
      | some e => (Except.ok (), localFallbackLink s u e walletAddress)
      | none =>
        match storeGet s.store u.uid with
        | some docData =>
          let walletAddresses := docData.walletAddresses.getD []
          if walletAddress ∈ walletAddresses then
            (Except.ok (), s)
          else
            match o.writeErr with
            | none =>
              (Except.ok (),
                { s with
                    store := storeSet s.store u.uid
                      { docData with walletAddresses := some (walletAddresses ++ [walletAddress]) }
                    user := some { u with walletAddresses := some (walletAddresses ++ [walletAddress]) } })
            | some e => (Except.ok (), localFallbackLink s u e walletAddress)
        | none =>
          match o.writeErr with
          | none =>
            (Except.ok (),
              { s with
                  store := storeSet s.store u.uid
                    ⟨u.uid, u.email, u.displayName, u.photoURL, some [walletAddress], now⟩
                  user := some { u with walletAddresses := some [walletAddress] } })
          | some e => (Except.ok (), localFallbackLink s u e walletAddress)

/-- The Firestore-read branch of `getUserWallets` (auth-context.tsx lines
429-456), reached when the local list is absent or empty. -/
def getUserWalletsRead (s : AuthState) (u : UserData) (o : FsOutcome) :
    List String × AuthState :=
  if s.dbInit = false then ([], firestoreInitFailure s)
  else
    match o.getDocErr with
    | some e => (u.walletAddresses.getD [], applyFirestoreError s e)
    | none =>
      match storeGet s.store u.uid with
      | some docData =>
        let wallets := docData.walletAddresses.getD []
        if 0 < wallets.length ∧ u.walletAddresses = none then
          (wallets, { s with user := some { u with walletAddresses := some wallets } })
        else (wallets, s)
      | none => ([], s)

/-- The read operation `getUserWallets` (auth-context.tsx lines 421-457).
It is total: the source catches every Firestore failure and returns a list. -/
def getUserWallets (s : AuthState) (o : FsOutcome) : List String × AuthState :=
  match s.user with
  | none => ([], s)
  | some u =>
    match u.walletAddresses with
    | some l => if 0 < l.length then (l, s) else getUserWalletsRead s u o
    | none => getUserWalletsRead s u o

/-- State held by `Web3Provider` (auth-context.tsx lines 595-598):
connected account, formatted balance string, connection flag and
in-progress-connecting flag. -/
structure WalletState where
  account : String
  balance : String
  isConnected : Bool
  isConnecting : Bool
deriving Repr, DecidableEq

/-- Initial `useState` values of `Web3Provider` (auth-context.tsx lines 595-598). -/
def initialWalletState : WalletState :=
  { account := "", balance := "0", isConnected := false, isConnecting := false }

/-- The `accountsChanged` handler (auth-context.tsx lines 686-697): an empty
list means the user disconnected; a changed first address updates the account,
sets the flag and calls `refreshBalance` (the returned Bool records whether a
balance refresh was triggered). -/
def handleAccountsChanged (s : WalletState) (accounts : List String) :
    WalletState × Bool :=
  match accounts with
  | [] => ({ s with account := "", balance := "0", isConnected := false }, false)
  | a :: _ =>
    if a ≠ s.account then
      ({ s with account := a, isConnected := true }, true)
    else (s, false)

/-- Outcome of the external calls made by `connectWallet`: no compatible
extension detected, the request rejected by the user (`error.code === 4001`),
some other extension failure, or the account list returned by
`eth_requestAccounts`. -/
inductive ConnectOutcome where
  | noProvider
  | rejected
  | failed
  | accounts (l : List String)
deriving Repr, DecidableEq

/-- `connectWallet` (auth-context.tsx lines 708-732). `refresh` is the result
of the `refreshBalance()` call that follows a successful account fetch:
`some b` means the balance was fetched and formatted to `b`, `none` that the
fetch threw (so the catch maps it to the generic connect failure). -/
def connectWallet (s : WalletState) (o : ConnectOutcome) (refresh : Option String) :
    Except String Unit × WalletState :=
  match o with
  | .noProvider =>
    (Except.error "MetaMask is not installed. Please install MetaMask to continue.", s)
  | .rejected =>
    (Except.error "User rejected the connection request", { s with isConnecting := false })
  | .failed =>
    (Except.error "Failed to connect to MetaMask", { s with isConnecting := false })
  | .accounts [] => (Except.ok (), { s with isConnecting := false })
  | .accounts (a :: _) =>
    match refresh with
    | some b =>
      (Except.ok (),
        { s with account := a, balance := b, isConnected := true, isConnecting := false })
    | none =>
      (Except.error "Failed to connect to MetaMask",
        { s with account := a, isConnected := true, isConnecting := false })

/-- `disconnectWallet` (auth-context.tsx lines 734-738). -/
def disconnectWallet (s : WalletState) : WalletState :=
  { s with account := "", balance := "0", isConnected := false }

/-- Invariant claimed for the Wallet Connection State: the connection flag is
true exactly when the connected address is non-empty, and a disconnected
state shows balance "0". -/
def WalletInv (s : WalletState) : Prop :=
  (s.isConnected = true ↔ s.account ≠ "") ∧ (s.isConnected = false → s.balance = "0")

/-- Addresses carried by a `ConnectOutcome` are real (non-empty) addresses. -/
def ConnectAddrsNonempty : ConnectOutcome → Prop
  | .accounts l => ∀ a ∈ l, a ≠ ""
  | _ => True

/-- Dependencies of the dashboard linkage effect (dashboard/page.tsx line 56),
restricted to the ones its condition reads. -/
structure RenderDeps where
  isConnected : Bool
  userPresent : Bool
  account : String
deriving Repr, DecidableEq

/-- One run of the `linkWalletIfConnected` effect body (dashboard/page.tsx
lines 39-56) over the `walletLinked` flag. `linkSucceeds` says whether the
awaited `linkWalletToUser` call resolves (`false` = it throws, so
`setWalletLinked(true)` is skipped and the error is swallowed). The second
component records the address passed to the link invocation, if one happened. -/
def linkWalletIfConnected (walletLinked : Bool) (r : RenderDeps) (linkSucceeds : Bool) :
    Bool × Option String :=
  if r.isConnected ∧ r.userPresent ∧ walletLinked = false then
    ((if linkSucceeds then true else walletLinked), some r.account)
  else (walletLinked, none)

/-- A dashboard session: the effect runs once per change of its dependencies;
`runDashboard` folds the runs and collects every link invocation, in order. -/
def runDashboard (walletLinked : Bool) : List (RenderDeps × Bool) → Bool × List String
  | [] => (walletLinked, [])
  | (r, ok) :: rest =>
    let step := linkWalletIfConnected walletLinked r ok
    let tail := runDashboard step.1 rest
    (tail.1, (match step.2 with | some a => [a] | none => []) ++ tail.2)

/-- Linked-wallet list of the in-memory Session User (empty when no user or
no list is held). -/
def memWallets (s : AuthState) : List String :=
  match s.user with
  | some u => u.walletAddresses.getD []
  | none => []

/-- Sample session user used to evaluate the operations on concrete inputs. -/
def sampleUser : UserData :=
  ⟨"u1", some "a@b.c", some "Ada", none, none⟩

/-- Sample persisted document for `sampleUser` with a given linked list. -/
def sampleDoc (l : List String) : UserDoc :=
  ⟨"u1", some "a@b.c", some "Ada", none, some l, "t0"⟩

/-- Sample provider state: Firestore initialized, `sampleUser` signed in,
a given document store. -/
def sampleAuthState (st : List (String × UserDoc)) : AuthState :=
  ⟨true, some sampleUser, none, st, []⟩

/-- Provider state with Firestore initialized and nobody signed in. -/
def noUserState : AuthState :=
  ⟨true, none, none, [], []⟩

/-- Provider state in which the Firestore handle is null. -/
def noDbState : AuthState :=
  ⟨false, none, none, [], []⟩

/-- A permission-denied Firestore error. -/
def permError : FsError :=
  ⟨"permission-denied", "Missing or insufficient permissions."⟩

/-- Session user holding a defined-but-empty linked list in memory. -/
def emptyListUser : UserData :=
  ⟨"u1", some "a@b.c", some "Ada", none, some []⟩

/-- Provider state for `emptyListUser` whose persisted document holds "0xAAA". -/
def emptyListState : AuthState :=
  ⟨true, some emptyListUser, none, [("u1", sampleDoc ["0xAAA"])], []⟩

/-- Dashboard render with a wallet connected on "0xAAA" and a user present. -/
def renderA : RenderDeps := ⟨true, true, "0xAAA"⟩

/-- Dashboard render with a wallet connected on "0xBBB" and a user present. -/
def renderB : RenderDeps := ⟨true, true, "0xBBB"⟩

theorem storeGet_storeSet_self (st : List (String × UserDoc)) (uid : String) (d : UserDoc) :
    storeGet (storeSet st uid d) uid = some d := by
  induction st with
  | nil => simp [storeSet, storeGet]
  | cons kv rest ih =>
    obtain ⟨k, v⟩ := kv
    by_cases h : k = uid
    · simp [storeSet, storeGet, h]
    · simp [storeSet, storeGet, h, ih]

/-- C6: when the persisted profile document does not exist, a successful
`linkWalletToUser` call creates it with the full profile fields and the
singleton linked-address list, and mirrors the singleton into the in-memory
session user. -/
theorem linkWallet_creates_profile_doc
    (s : AuthState) (u : UserData) (walletAddress now : String)
    (hdb : s.dbInit = true) (hu : s.user = some u)
    (hnd : storeGet s.store u.uid = none) :
    (linkWalletToUser s fsOk walletAddress now).1 = Except.ok () ∧
    storeGet (linkWalletToUser s fsOk walletAddress now).2.store u.uid =
      some ⟨u.uid, u.email, u.displayName, u.photoURL, some [walletAddress], now⟩ ∧
    (linkWalletToUser s fsOk walletAddress now).2.user =
      some { u with walletAddresses := some [walletAddress] } := by
  simp [linkWalletToUser, hdb, hu, hnd, fsOk, storeGet_storeSet_self]

theorem linkWallet_creates_profile_doc_witness :
    (sampleAuthState []).dbInit = true ∧
    ((linkWalletToUser (sampleAuthState []) fsOk "0xAAA" "t1").1 = Except.ok () ∧
      storeGet (linkWalletToUser (sampleAuthState []) fsOk "0xAAA" "t1").2.store "u1" =
        some ⟨"u1", some "a@b.c", some "Ada", none, some ["0xAAA"], "t1"⟩ ∧
      (linkWalletToUser (sampleAuthState []) fsOk "0xAAA" "t1").2.user =
        some ⟨"u1", some "a@b.c", some "Ada", none, some ["0xAAA"]⟩) :=
  ⟨rfl, linkWallet_creates_profile_doc (sampleAuthState []) sampleUser "0xAAA" "t1" rfl rfl rfl⟩

/-- C7: an account-change notification with an empty address list is treated
as disconnection (address cleared, flag false, balance reset, no refresh);
a notification whose first address is different updates the address, sets the
flag and triggers a balance refresh. -/
theorem accountsChanged_spec (s : WalletState) (accounts : List String) :
    (accounts = [] →
      handleAccountsChanged s accounts =
        ({ s with account := "", balance := "0", isConnected := false }, false)) ∧
    (∀ a rest, accounts = a :: rest → a ≠ s.account →
      handleAccountsChanged s accounts =
        ({ s with account := a, isConnected := true }, true)) := by
  constructor
  · intro h; subst h; rfl
  · intro a rest h hne; subst h; simp [handleAccountsChanged, hne]

theorem accountsChanged_spec_witness :
    handleAccountsChanged ⟨"0xAAA", "5", true, false⟩ [] = (⟨"", "0", false, false⟩, false) ∧
    ("0xBBB" : String) ≠ "0xAAA" ∧
    handleAccountsChanged ⟨"0xAAA", "5", true, false⟩ ["0xBBB"] =
      (⟨"0xBBB", "5", true, false⟩, true) :=
  ⟨(accountsChanged_spec ⟨"0xAAA", "5", true, false⟩ []).1 rfl, by decide,
   (accountsChanged_spec ⟨"0xAAA", "5", true, false⟩ ["0xBBB"]).2 "0xBBB" [] rfl (by decide)⟩

/-- C8 counterexample: a call with no authenticated user while the Firestore
handle is null fails with the initialization error, not with the
not-authenticated error, so the claim as universally stated is false. -/
theorem linkWallet_requires_user_cex :
    noDbState.user = none ∧
    (linkWalletToUser noDbState fsOk "0xAAA" "t1").1 =
      Except.error "Firestore is not initialized" ∧
    (linkWalletToUser noDbState fsOk "0xAAA" "t1").1 ≠
      Except.error "No user logged in" := by
  refine ⟨rfl, rfl, ?_⟩
  intro h
  simp [linkWalletToUser, noDbState] at h

/-- C8 amended: when the Firestore handle is initialized, a call with no
authenticated user fails with the not-authenticated error ("No user logged
in") and leaves the whole state - session user, persisted store, error
channel - unchanged. -/
theorem linkWallet_requires_user
    (s : AuthState) (o : FsOutcome) (walletAddress now : String)
    (hdb : s.dbInit = true) (hu : s.user = none) :
    linkWalletToUser s o walletAddress now = (Except.error "No user logged in", s) := by
  simp [linkWalletToUser, hdb, hu]

theorem linkWallet_requires_user_witness :
    noUserState.dbInit = true ∧ noUserState.user = none ∧
    linkWalletToUser noUserState fsOk "0xAAA" "t1" =
      (Except.error "No user logged in", noUserState) :=
  ⟨rfl, rfl, linkWallet_requires_user noUserState fsOk "0xAAA" "t1" rfl rfl⟩

/-- C10: the Wallet Connection State invariant - connection flag true exactly
when the connected address is non-empty, and balance "0" whenever the flag is
false - holds initially and is preserved by `disconnectWallet`, by every
account-change notification carrying real (non-empty) addresses, and by
`connectWallet` whatever its outcome. -/
theorem wallet_invariant_preserved
    (s : WalletState) (accounts : List String) (o : ConnectOutcome)
    (refresh : Option String) (hs : WalletInv s)
    (hacc : ∀ a ∈ accounts, a ≠ "") (ho : ConnectAddrsNonempty o) :
    WalletInv initialWalletState ∧
    WalletInv (disconnectWallet s) ∧
    WalletInv (handleAccountsChanged s accounts).1 ∧
    WalletInv (connectWallet s o refresh).2 := by
  refine ⟨⟨by simp [initialWalletState], fun _ => rfl⟩,
    ⟨by simp [disconnectWallet], fun _ => rfl⟩, ?_, ?_⟩
  · cases accounts with
    | nil => exact ⟨by simp [handleAccountsChanged], fun _ => rfl⟩
    | cons a rest =>
      by_cases h : a = s.account
      · simpa [handleAccountsChanged, h] using hs
      · have ha : a ≠ "" := hacc a (by simp)
        simp [handleAccountsChanged, h, WalletInv, ha]
  · cases o with
    | noProvider => simpa [connectWallet] using hs
    | rejected =>
      simpa [connectWallet, WalletInv] using ⟨hs.1, hs.2⟩
    | failed =>
      simpa [connectWallet, WalletInv] using ⟨hs.1, hs.2⟩
    | accounts l =>
      cases l with
      | nil => simpa [connectWallet, WalletInv] using ⟨hs.1, hs.2⟩
      | cons a rest =>
        have ha : a ≠ "" := ho a (by simp)
        cases refresh with
        | some b => simp [connectWallet, WalletInv, ha]
        | none => simp [connectWallet, WalletInv, ha]

theorem wallet_invariant_preserved_witness :
    WalletInv ⟨"0xAAA", "5", true, false⟩ ∧
    (WalletInv initialWalletState ∧
      WalletInv (disconnectWallet ⟨"0xAAA", "5", true, false⟩) ∧
      WalletInv (handleAccountsChanged ⟨"0xAAA", "5", true, false⟩ ["0xBBB"]).1 ∧
      WalletInv (connectWallet ⟨"0xAAA", "5", true, false⟩
        (ConnectOutcome.accounts ["0xBBB"]) (some "7")).2) :=
  ⟨by simp [WalletInv],
   wallet_invariant_preserved ⟨"0xAAA", "5", true, false⟩ ["0xBBB"]
     (ConnectOutcome.accounts ["0xBBB"]) (some "7") (by simp [WalletInv]) (by decide)
     (by simp [ConnectAddrsNonempty])⟩

/-- C1: if the persisted document already lists the address, the link
operation is a no-op returning success; and starting from a document that
does not list it, calling the operation twice with the same address is a
no-op the second time and leaves exactly one entry for the address in both
the persisted document and the in-memory linked-wallet list. -/
theorem linkWallet_idempotent
    (s : AuthState) (u : UserData) (d : UserDoc) (walletAddress now now2 : String)
    (hdb : s.dbInit = true) (hu : s.user = some u)
    (hd : storeGet s.store u.uid = some d) :
    (walletAddress ∈ d.walletAddresses.getD [] →
      linkWalletToUser s fsOk walletAddress now = (Except.ok (), s)) ∧
    (walletAddress ∉ d.walletAddresses.getD [] →
      linkWalletToUser (linkWalletToUser s fsOk walletAddress now).2 fsOk walletAddress now2 =
        (Except.ok (), (linkWalletToUser s fsOk walletAddress now).2) ∧
      (∃ d2, storeGet (linkWalletToUser s fsOk walletAddress now).2.store u.uid = some d2 ∧
        (d2.walletAddresses.getD []).count walletAddress = 1) ∧
      (memWallets (linkWalletToUser s fsOk walletAddress now).2).count walletAddress = 1) := by
  constructor
  · intro hmem
    simp [linkWalletToUser, hdb, hu, hd, fsOk, hmem]
  · intro hmem
    have h1 : linkWalletToUser s fsOk walletAddress now =
        (Except.ok (),
          { s with store := storeSet s.store u.uid { d with walletAddresses := some (d.walletAddresses.getD [] ++ [walletAddress]) }, user := some { u with walletAddresses := some (d.walletAddresses.getD [] ++ [walletAddress]) } }) := by
      simp [linkWalletToUser, hdb, hu, hd, fsOk, hmem]
    rw [h1]
    have hcount : (d.walletAddresses.getD [] ++ [walletAddress]).count walletAddress = 1 := by
      simp [List.count_append, List.count_eq_zero_of_not_mem hmem]
    refine ⟨?_, ⟨_, storeGet_storeSet_self s.store u.uid _, by simpa using hcount⟩,
      by simpa [memWallets] using hcount⟩
    simp [linkWalletToUser, hdb, hu, fsOk, storeGet_storeSet_self]

theorem linkWallet_idempotent_witness :
    storeGet (sampleAuthState [("u1", sampleDoc ["0xAAA"])]).store "u1" =
      some (sampleDoc ["0xAAA"]) ∧
    linkWalletToUser (sampleAuthState [("u1", sampleDoc ["0xAAA"])]) fsOk "0xAAA" "t1" =
      (Except.ok (), sampleAuthState [("u1", sampleDoc ["0xAAA"])]) ∧
    (linkWalletToUser
        (linkWalletToUser (sampleAuthState [("u1", sampleDoc ["0xAAA"])]) fsOk "0xBBB" "t1").2
        fsOk "0xBBB" "t2" =
      (Except.ok (),
        (linkWalletToUser (sampleAuthState [("u1", sampleDoc ["0xAAA"])]) fsOk "0xBBB" "t1").2) ∧
      (∃ d2, storeGet
          (linkWalletToUser (sampleAuthState [("u1", sampleDoc ["0xAAA"])]) fsOk
            "0xBBB" "t1").2.store "u1" = some d2 ∧
        (d2.walletAddresses.getD []).count "0xBBB" = 1) ∧
      (memWallets
          (linkWalletToUser (sampleAuthState [("u1", sampleDoc ["0xAAA"])]) fsOk
            "0xBBB" "t1").2).count "0xBBB" = 1) :=
  ⟨rfl,
   (linkWallet_idempotent (sampleAuthState [("u1", sampleDoc ["0xAAA"])]) sampleUser
      (sampleDoc ["0xAAA"]) "0xAAA" "t1" "t2" rfl rfl rfl).1 (by decide),
   (linkWallet_idempotent (sampleAuthState [("u1", sampleDoc ["0xAAA"])]) sampleUser
      (sampleDoc ["0xAAA"]) "0xBBB" "t1" "t2" rfl rfl rfl).2 (by decide)⟩

/-- C4: linking two distinct addresses A then B, neither already linked and
both calls succeeding against the store, appends them in insertion order:
the persisted list and the in-memory list both become the prior list
followed by A then B, with the prior elements untouched. -/
theorem linkWallet_two_distinct
    (s : AuthState) (u : UserData) (d : UserDoc) (A B now now2 : String)
    (hdb : s.dbInit = true) (hu : s.user = some u)
    (hd : storeGet s.store u.uid = some d)
    (hA : A ∉ d.walletAddresses.getD []) (hB : B ∉ d.walletAddresses.getD [])
    (hAB : A ≠ B) :
    storeGet (linkWalletToUser (linkWalletToUser s fsOk A now).2 fsOk B now2).2.store u.uid =
      some { d with walletAddresses := some (d.walletAddresses.getD [] ++ [A, B]) } ∧
    (linkWalletToUser (linkWalletToUser s fsOk A now).2 fsOk B now2).2.user =
      some { u with walletAddresses := some (d.walletAddresses.getD [] ++ [A, B]) } := by
  have h1 : linkWalletToUser s fsOk A now =
      (Except.ok (),
        { s with store := storeSet s.store u.uid { d with walletAddresses := some (d.walletAddresses.getD [] ++ [A]) }, user := some { u with walletAddresses := some (d.walletAddresses.getD [] ++ [A]) } }) := by
    simp [linkWalletToUser, hdb, hu, hd, fsOk, hA]
  rw [h1]
  have hBnotin : B ∉ d.walletAddresses.getD [] ++ [A] := by
    simp [List.mem_append, hB, Ne.symm hAB]
  have h2 := storeGet_storeSet_self s.store u.uid
    { d with walletAddresses := some (d.walletAddresses.getD [] ++ [A]) }
  simp only [linkWalletToUser, fsOk, hdb, h2, hBnotin, if_neg, ite_false]
  simp [linkWalletToUser, hdb, fsOk, h2, hBnotin, storeGet_storeSet_self,
    List.append_assoc]

theorem linkWallet_two_distinct_witness :
    ("0xBBB" : String) ≠ "0xCCC" ∧
    storeGet (linkWalletToUser
        (linkWalletToUser (sampleAuthState [("u1", sampleDoc ["0xAAA"])]) fsOk "0xBBB" "t1").2
        fsOk "0xCCC" "t2").2.store "u1" =
      some ⟨"u1", some "a@b.c", some "Ada", none, some ["0xAAA", "0xBBB", "0xCCC"], "t0"⟩ ∧
    (linkWalletToUser
        (linkWalletToUser (sampleAuthState [("u1", sampleDoc ["0xAAA"])]) fsOk "0xBBB" "t1").2
        fsOk "0xCCC" "t2").2.user =
      some ⟨"u1", some "a@b.c", some "Ada", none, some ["0xAAA", "0xBBB", "0xCCC"]⟩ :=
  ⟨by decide,
   (linkWallet_two_distinct (sampleAuthState [("u1", sampleDoc ["0xAAA"])]) sampleUser
      (sampleDoc ["0xAAA"]) "0xBBB" "0xCCC" "t1" "t2" rfl rfl rfl
      (by decide) (by decide) (by decide)).1,
   (linkWallet_two_distinct (sampleAuthState [("u1", sampleDoc ["0xAAA"])]) sampleUser
      (sampleDoc ["0xAAA"]) "0xBBB" "0xCCC" "t1" "t2" rfl rfl rfl
      (by decide) (by decide) (by decide)).2⟩

theorem localFallbackLink_spec (s : AuthState) (u : UserData) (e : FsError)
    (w : String) (hu : s.user = some u) :
    (localFallbackLink s u e w).store = s.store ∧
    (localFallbackLink s u e w).diagnostics = s.diagnostics ++ [firestoreErrorMessage e] ∧
    memWallets (localFallbackLink s u e w) =
      (if w ∈ u.walletAddresses.getD [] then u.walletAddresses.getD []
       else u.walletAddresses.getD [] ++ [w]) := by
  by_cases hmem : w ∈ u.walletAddresses.getD []
  · simp [localFallbackLink, applyFirestoreError, hmem, memWallets, hu]
  · simp [localFallbackLink, applyFirestoreError, hmem, memWallets, hu]

/-- C2: if the Firestore read throws, or the attempted write throws, the link
call still returns success, emits exactly one diagnostic on the error
channel, leaves the persisted store unchanged, and the in-memory
linked-wallet list afterwards contains the address - appended when it was
absent, untouched (no duplicate) when it was already present in memory. -/
theorem linkWallet_failure_local_fallback
    (s : AuthState) (o : FsOutcome) (u : UserData) (e : FsError)
    (walletAddress now : String)
    (hdb : s.dbInit = true) (hu : s.user = some u)
    (hfail : o.getDocErr = some e ∨
      (o.getDocErr = none ∧ o.writeErr = some e ∧
        (match storeGet s.store u.uid with
         | some d => walletAddress ∉ d.walletAddresses.getD []
         | none => True))) :
    (linkWalletToUser s o walletAddress now).1 = Except.ok () ∧
    (linkWalletToUser s o walletAddress now).2.store = s.store ∧
    (linkWalletToUser s o walletAddress now).2.diagnostics =
      s.diagnostics ++ [firestoreErrorMessage e] ∧
    memWallets (linkWalletToUser s o walletAddress now).2 =
      (if walletAddress ∈ u.walletAddresses.getD [] then u.walletAddresses.getD []
       else u.walletAddresses.getD [] ++ [walletAddress]) ∧
    walletAddress ∈ memWallets (linkWalletToUser s o walletAddress now).2 := by
  have hcontains : walletAddress ∈
      (if walletAddress ∈ u.walletAddresses.getD [] then u.walletAddresses.getD []
       else u.walletAddresses.getD [] ++ [walletAddress]) := by
    by_cases hmem : walletAddress ∈ u.walletAddresses.getD [] <;> simp [hmem]
  have hred : linkWalletToUser s o walletAddress now =
      (Except.ok (), localFallbackLink s u e walletAddress) := by
    rcases hfail with hge | ⟨hge, hwe, hcond⟩
    · simp [linkWalletToUser, hdb, hu, hge]
    · cases hsg : storeGet s.store u.uid with
      | some d =>
        have hnot : walletAddress ∉ d.walletAddresses.getD [] := by
          simpa [hsg] using hcond
        simp [linkWalletToUser, hdb, hu, hge, hsg, hnot, hwe]
      | none =>
        simp [linkWalletToUser, hdb, hu, hge, hsg, hwe]
  rw [hred]
  obtain ⟨h1, h2, h3⟩ := localFallbackLink_spec s u e walletAddress hu
  exact ⟨rfl, h1, h2, h3, h3 ▸ hcontains⟩

theorem linkWallet_failure_local_fallback_witness :
    (linkWalletToUser (sampleAuthState []) ⟨some permError, none⟩ "0xBBB" "t1").1 =
      Except.ok () ∧
    (linkWalletToUser (sampleAuthState []) ⟨some permError, none⟩ "0xBBB" "t1").2.store = [] ∧
    (linkWalletToUser (sampleAuthState []) ⟨some permError, none⟩ "0xBBB" "t1").2.diagnostics =
      [] ++ [firestoreErrorMessage permError] ∧
    memWallets (linkWalletToUser (sampleAuthState []) ⟨some permError, none⟩ "0xBBB" "t1").2 =
      ["0xBBB"] ∧
    "0xBBB" ∈ memWallets
      (linkWalletToUser (sampleAuthState []) ⟨some permError, none⟩ "0xBBB" "t1").2 :=
  linkWallet_failure_local_fallback (sampleAuthState []) ⟨some permError, none⟩
    sampleUser permError "0xBBB" "t1" rfl rfl (Or.inl rfl)

/-- C5 counterexample: with a defined-but-empty in-memory list and a
non-empty persisted list, `getUserWallets` returns the fetched list but does
not cache it - the state (in particular the in-memory list, still `some []`)
is unchanged, against the claim that the read result is cached into memory. -/
theorem getUserWallets_no_cache_cex :
    (getUserWallets emptyListState fsOk).1 = ["0xAAA"] ∧
    (getUserWallets emptyListState fsOk).2 = emptyListState ∧
    emptyListUser.walletAddresses = some [] := by
  refine ⟨rfl, rfl, rfl⟩

/-- C5 amended: `getUserWallets` never fails the caller. An absent user gives
the empty list with no read; a populated in-memory list is returned with no
read; otherwise a store read is attempted: an uninitialized store gives the
empty list, a read failure gives the previously held (hence empty) list with
a logged diagnostic instead of raising, and a successful read returns the
document's list, cached into memory only when it is non-empty and the
in-memory field is absent. -/
theorem getUserWallets_total_spec (s : AuthState) (o : FsOutcome) :
    (s.user = none → getUserWallets s o = ([], s)) ∧
    (∀ u l, s.user = some u → u.walletAddresses = some l → l ≠ [] →
      getUserWallets s o = (l, s)) ∧
    (∀ u, s.user = some u → (u.walletAddresses = none ∨ u.walletAddresses = some []) →
      (s.dbInit = false → getUserWallets s o = ([], firestoreInitFailure s)) ∧
      (∀ e, s.dbInit = true → o.getDocErr = some e →
        getUserWallets s o = (u.walletAddresses.getD [], applyFirestoreError s e)) ∧
      (∀ d, s.dbInit = true → o.getDocErr = none → storeGet s.store u.uid = some d →
        getUserWallets s o =
          (d.walletAddresses.getD [],
            if 0 < (d.walletAddresses.getD []).length ∧ u.walletAddresses = none then
              { s with user := some { u with walletAddresses := some (d.walletAddresses.getD []) } }
            else s)) ∧
      (s.dbInit = true → o.getDocErr = none → storeGet s.store u.uid = none →
        getUserWallets s o = ([], s))) := by
  refine ⟨fun hn => by simp [getUserWallets, hn], ?_, ?_⟩
  · intro u l hu hl hne
    have hlen : 0 < l.length := List.length_pos.mpr hne
    simp [getUserWallets, hu, hl, hlen]
  · intro u hu hmem
    have hread : getUserWallets s o = getUserWalletsRead s u o := by
      rcases hmem with h | h <;> simp [getUserWallets, hu, h]
    refine ⟨fun hdb => ?_, fun e hdb hge => ?_, fun d hdb hge hsg => ?_, fun hdb hge hsg => ?_⟩
    · rw [hread]; simp [getUserWalletsRead, hdb]
    · rw [hread]; simp [getUserWalletsRead, hdb, hge]
    · rw [hread]
      by_cases hc : 0 < (d.walletAddresses.getD []).length ∧ u.walletAddresses = none
      · simp [getUserWalletsRead, hdb, hge, hsg, hc]
      · simp [getUserWalletsRead, hdb, hge, hsg, hc]
    · rw [hread]; simp [getUserWalletsRead, hdb, hge, hsg]

theorem getUserWallets_total_spec_witness :
    (getUserWallets (sampleAuthState []) ⟨some permError, none⟩ =
      ([], applyFirestoreError (sampleAuthState []) permError)) ∧
    (getUserWallets emptyListState fsOk = (["0xAAA"], emptyListState)) ∧
    (getUserWallets noUserState fsOk = ([], noUserState)) :=
  ⟨(getUserWallets_total_spec (sampleAuthState []) ⟨some permError, none⟩).2.2
      sampleUser rfl (Or.inl rfl) |>.2.1 permError rfl rfl,
   (getUserWallets_total_spec emptyListState fsOk).2.2
      emptyListUser rfl (Or.inr rfl) |>.2.2.1 (sampleDoc ["0xAAA"]) rfl rfl rfl,
   (getUserWallets_total_spec noUserState fsOk).1 rfl⟩

/-- C3 counterexample: within one dashboard session, wallet "0xAAA" connects
and is linked; then the connected account switches to the distinct address
"0xBBB" with the user still authenticated. The effect never invokes the link
operation for "0xBBB" - the single `walletLinked` flag suppresses it - so the
claim that a new invocation happens for each distinct newly-connected address
is false. -/
theorem dashboard_no_relink_cex :
    (runDashboard false [(renderA, true), (renderB, true)]).2 = ["0xAAA"] ∧
    "0xBBB" ∉ (runDashboard false [(renderA, true), (renderB, true)]).2 ∧
    renderB.isConnected = true ∧ renderB.userPresent = true ∧
    renderB.account = "0xBBB" := by
  refine ⟨rfl, by decide, rfl, rfl, rfl⟩

theorem runDashboard_linked (evs : List (RenderDeps × Bool)) :
    runDashboard true evs = (true, []) := by
  induction evs with
  | nil => rfl
  | cons p rest ih =>
    obtain ⟨r, ok⟩ := p
    simp [runDashboard, linkWalletIfConnected, ih]

/-- C3 amended: the dashboard composition layer invokes the link operation at
most once per session when the link succeeds: the first render with a user
authenticated and a wallet connected triggers it for the then-connected
address, after which the session-wide `walletLinked` flag suppresses every
further invocation - on re-renders and also for any distinct address that
becomes connected later in the same session. -/
theorem dashboard_links_at_most_once
    (evs evs2 : List (RenderDeps × Bool)) (hok : ∀ p ∈ evs, p.2 = true) :
    (runDashboard false evs).2.length ≤ 1 ∧
    runDashboard true evs2 = (true, []) := by
  refine ⟨?_, runDashboard_linked evs2⟩
  induction evs with
  | nil => simp [runDashboard]
  | cons p rest ih =>
    obtain ⟨r, ok⟩ := p
    have hok1 : ok = true := hok (r, ok) (by simp)
    subst hok1
    have ihr : (runDashboard false rest).2.length ≤ 1 :=
      ih (fun q hq => hok q (by simp [hq]))
    by_cases hic : r.isConnected = true
    · by_cases hup : r.userPresent = true
      · simp [runDashboard, linkWalletIfConnected, hic, hup, runDashboard_linked]
      · simpa [runDashboard, linkWalletIfConnected, hic, hup] using ihr
    · simpa [runDashboard, linkWalletIfConnected, hic] using ihr

theorem dashboard_links_at_most_once_witness :
    (∀ p ∈ [(renderA, true), (renderA, true)], p.2 = true) ∧
    ((runDashboard false [(renderA, true), (renderA, true)]).2.length ≤ 1 ∧
      runDashboard true [(renderB, true)] = (true, [])) :=
  ⟨by decide,
   dashboard_links_at_most_once [(renderA, true), (renderA, true)] [(renderB, true)]
     (by decide)⟩

end EtherFlow
